import Mathlib

/-!
# Verification of the Sicily Live Map modal / map controllers

A shallow embedding of `src/scripts/modal.js` (the modal image-gallery and
focus-trap controller, plus the motion-preference bootstrap appended to the
same file) and of `src/scripts/map.js` (the Leaflet map controller).

Conventions of the embedding:
* the module-level mutable variables of `modal.js` (`currentLocation`,
  `currentImageIndex`, `focusableElements`, `previouslyFocusedElement`,
  `touchStartX`, `touchEndX`) together with the dialog's DOM subtree are
  collected in a `World` record; each JS function becomes a `World → World`
  transition (or returns an extra `Option JsError` where the JS function can
  throw);
* DOM elements are identified by `Nat` handles; `document.activeElement` is
  the handle of the currently focused element;
* JS numbers that only ever hold integral pixel/index values are `Int`;
* a JS value that may be `null`/`undefined` is an `Option`.
-/

namespace SicilySite

/-- A `Location` record from `./data/locations.json`: coordinates may be
absent altogether, and each of `lat`/`lng` may be absent inside `coords`.
The numeric fields are integral in the embedding (only their JS truthiness
and identity matter for the claims). -/
structure Coords where
  lat : Option Int
  lng : Option Int
deriving Repr, DecidableEq

structure Location where
  id : String
  name : String
  summary : String
  coords : Option Coords
  gallery : List String
deriving Repr, DecidableEq

/-! ## Gallery rendering (`renderGallery`, lines 99-156 of modal.js) -/

/-- The three mutually exclusive innerHTML shapes `renderGallery` writes into
`#modalGallery`: the empty-state placeholder, the single non-navigable image,
or the full gallery (main image, prev/next buttons, `1 / n` counter, one
thumbnail button per image with the active one marked). -/
inductive GalleryView where
  | emptyState
  | single (src : String)
  | full (mainSrc : String) (counter : String) (thumbSrcs : List String)
         (activeThumb : Nat)
deriving Repr, DecidableEq

/-- `renderGallery(images)`: branch on `images.length === 0`, `=== 1`, else
the full gallery with main image `images[0]`, counter `1 / ${images.length}`
and thumb 0 active. -/
def renderGallery (images : List String) : GalleryView :=
  match images with
  | [] => .emptyState
  | [img] => .single img
  | img :: _ => .full img ("1 / " ++ toString images.length) images 0

/-- Number of previous/next navigation buttons present in a rendered gallery
view: the full template has the two `.gallery-nav` buttons, the other two
templates have none. -/
def navControlCount : GalleryView → Nat
  | .full _ _ _ _ => 2
  | _ => 0

/-! ## Gallery navigation (`navigateGallery`, lines 174-184 of modal.js) -/

/-- The index computation of `navigateGallery(direction, images)`:
`currentImageIndex += direction`, then clamp-wrap: below 0 goes to
`images.length - 1`, at or past `images.length` goes to 0.  (The DOM half of
the JS function, `updateGalleryImage`, is embedded separately below.) -/
def navigateGallery (direction : Int) (images : List String)
    (currentImageIndex : Int) : Int :=
  let i := currentImageIndex + direction
  if i < 0 then (images.length : Int) - 1
  else if (images.length : Int) ≤ i then 0
  else i

/-- `updateGalleryImage(images)` (lines 186-202): rewrite the main image
source, the `i+1 / n` counter and the active-thumb marker.  On the single and
empty views `getElementById('galleryMainImage')` / `'galleryCounter'` are
null and `querySelectorAll('.gallery-thumb')` is empty, so nothing changes. -/
def updateGalleryImage (images : List String) (idx : Int) :
    GalleryView → GalleryView
  | .full _ _ thumbs _ =>
      .full (images.getD idx.toNat "") (toString (idx + 1) ++ " / " ++ toString images.length)
        thumbs idx.toNat
  | v => v

/-! Sanity checks for the spec's concrete scenario, gallery
`["a.jpg","b.jpg","c.jpg"]`. -/

example : navigateGallery 1 ["a.jpg", "b.jpg", "c.jpg"] 0 = 1 := by decide
example : navigateGallery 1 ["a.jpg", "b.jpg", "c.jpg"] 2 = 0 := by decide
example : navigateGallery (-1) ["a.jpg", "b.jpg", "c.jpg"] 0 = 2 := by decide
example : renderGallery ["x"] = .single "x" := by decide

/-- A single `navigateGallery` step from an in-range index with direction
`±1` is addition modulo the gallery length. -/
theorem navigateGallery_emod (images : List String) (cur dir : Int)
    (h0 : 0 ≤ cur) (h1 : cur < (images.length : Int))
    (hdir : dir = 1 ∨ dir = -1) :
    navigateGallery dir images cur = (cur + dir) % (images.length : Int) := by
  have hlen : (0 : Int) < (images.length : Int) := lt_of_le_of_lt h0 h1
  unfold navigateGallery
  rcases hdir with rfl | rfl
  · by_cases hge : (images.length : Int) ≤ cur + 1
    · have hcur : cur = (images.length : Int) - 1 := by omega
      have h2 : ¬ cur + 1 < 0 := by omega
      simp only [h2, if_false, hge, if_true]
      rw [hcur]
      simp [Int.sub_add_cancel, Int.emod_self]
    · have h2 : ¬ cur + 1 < 0 := by omega
      simp only [h2, if_false, hge, if_false]
      rw [Int.emod_eq_of_lt (by omega) (by omega)]
  · by_cases hneg : cur + -1 < 0
    · have hcur : cur = 0 := by omega
      simp only [hneg, if_true]
      subst hcur
      have hn : ((0 : Int) + -1) % (images.length : Int)
          = ((images.length : Int) - 1) % (images.length : Int) := by
        conv_rhs => rw [show ((images.length : Int) - 1)
          = 0 + -1 + (images.length : Int) * 1 by ring]
        rw [Int.add_mul_emod_self_left]
      rw [hn, Int.emod_eq_of_lt (by omega) (by omega)]
    · have h2 : ¬ (images.length : Int) ≤ cur + -1 := by omega
      simp only [hneg, if_false, h2, if_false]
      rw [Int.emod_eq_of_lt (by omega) (by omega)]

/-- Iterating the `+1` step `m` times from 0 lands on `m % n`. -/
theorem navigateGallery_iterate (images : List String)
    (h2 : 2 ≤ images.length) (m : Nat) :
    (fun c => navigateGallery 1 images c)^[m] 0 = (m : Int) % (images.length : Int) := by
  induction m with
  | zero => simp
  | succ k ih =>
      rw [Function.iterate_succ_apply', ih]
      have hlen : (0 : Int) < (images.length : Int) := by
        have : 0 < images.length := by omega
        exact_mod_cast this
      have hmod0 : 0 ≤ (k : Int) % (images.length : Int) :=
        Int.emod_nonneg _ (by omega)
      have hmod1 : (k : Int) % (images.length : Int) < (images.length : Int) :=
        Int.emod_lt_of_pos _ hlen
      rw [navigateGallery_emod images _ 1 hmod0 hmod1 (Or.inl rfl)]
      rw [Int.emod_add_emod]
      push_cast
      ring_nf

/-- C1: from index 0, `n` steps of `navigateGallery(+1, images)` on a gallery
of `n ≥ 2` images return the index to 0, and each single step with direction
`+1` or `-1` from an in-range index is `(currentImageIndex + direction)`
wrapped circularly into `[0, images.length)` (i.e. taken modulo the length,
so past-the-end wraps to 0 and before-the-start wraps to the last index). -/
theorem gallery_roundtrip_and_wrap (images : List String)
    (h2 : 2 ≤ images.length) :
    (fun c => navigateGallery 1 images c)^[images.length] 0 = 0 ∧
    ∀ cur dir : Int, 0 ≤ cur → cur < (images.length : Int) →
      (dir = 1 ∨ dir = -1) →
      navigateGallery dir images cur = (cur + dir) % (images.length : Int) := by
  constructor
  · rw [navigateGallery_iterate images h2 images.length, Int.emod_self]
  · intro cur dir hc0 hc1 hdir
    exact navigateGallery_emod images cur dir hc0 hc1 hdir

/-! ## The modal world

`modal.js` is an ES module (it is imported with `import { initModal } from
'./modal.js'`), so its body runs in strict mode and reading an identifier
that no enclosing scope declares throws a `ReferenceError`. -/

/-- The runtime errors the embedded code can raise. -/
inductive JsError where
  | referenceError (name : String)
deriving Repr, DecidableEq

/-- Every name declared in the module scope of `modal.js` (the six `let`
bindings and the function declarations).  `trapFocus` is *not* among them: it
occurs in the file only as the name of the function expression passed to
`addEventListener` on line 252, and the name of a named function expression
is bound only inside that function's own body. -/
def modalModuleScope : List String :=
  ["currentLocation", "currentImageIndex", "focusableElements",
   "previouslyFocusedElement", "touchStartX", "touchEndX",
   "initModal", "openModal", "closeModal", "renderGallery",
   "setupGalleryNavigation", "navigateGallery", "updateGalleryImage",
   "handleTouchStart", "handleTouchEnd", "handleSwipe",
   "setupFocusTrap", "handleModalKeydown"]

/-- Strict-mode identifier resolution against the module scope (the bodies of
the functions in question declare no local of the looked-up name). -/
def resolveInModalScope (name : String) : Option String :=
  if modalModuleScope.contains name then some name else none

/-- The `#modal` dialog subtree: its `aria-hidden` flag, the `#modal-title`
and `#modalDescription` contents, the `#modalGallery` contents, the list of
elements matching the focusable-selector query inside the subtree (in DOM
order), and how many keydown listeners are currently attached to the dialog
root. -/
structure ModalDom where
  ariaHidden : Bool
  titleText : String
  descriptionHtml : String
  galleryView : GalleryView
  focusables : List Nat
  keydownListenerCount : Nat
deriving Repr, DecidableEq

/-- The page state the modal controller touches: the dialog root (`none` when
`document.getElementById('modal')` finds nothing), `document.activeElement`,
the `body` scroll lock, and the six module-level variables of `modal.js`. -/
structure World where
  dialog : Option ModalDom
  activeElement : Nat
  bodyOverflowHidden : Bool
  currentLocation : Option Location
  currentImageIndex : Int
  focusableElements : List Nat
  previouslyFocusedElement : Option Nat
  touchStartX : Int
  touchEndX : Int
deriving Repr, DecidableEq

/-- `setupFocusTrap(modal)` (lines 230-269): recompute `focusableElements`
from the modal subtree; if the ring is empty, return; otherwise execute
`modal.removeEventListener('keydown', trapFocus)` — which first evaluates the
identifier `trapFocus`, unresolvable in any enclosing scope, so a
`ReferenceError` is thrown before `addEventListener` on the next line can
run.  The result carries the state as mutated up to the throw point. -/
def setupFocusTrap (d : ModalDom) (w : World) :
    ModalDom × World × Option JsError :=
  let focusable := d.focusables
  let w := { w with focusableElements := focusable }
  if focusable.length = 0 then (d, w, none)
  else
    match resolveInModalScope "trapFocus" with
    | none => (d, w, some (.referenceError "trapFocus"))
    | some _ =>
        ({ d with keydownListenerCount := d.keydownListenerCount + 1 }, w, none)

/-- `openModal(location)` (lines 42-78): no-op when the dialog root is
missing or the location is null; otherwise set the session state, capture the
focused element, populate title/description, render the gallery, show the
dialog, lock scroll, and run `setupFocusTrap`.  The returned error is the
exception (if any) escaping the call; the returned world holds every
mutation performed before the throw.  The trailing `setTimeout` callback is
embedded separately as `openFocusTimer` (it is scheduled only on the
error-free path, after `setupFocusTrap` returns). -/
def openModal (location : Option Location) (w : World) :
    World × Option JsError :=
  match w.dialog, location with
  | none, _ => (w, none)
  | some _, none => (w, none)
  | some d, some loc =>
    let w := { w with
      currentLocation := some loc,
      currentImageIndex := 0,
      previouslyFocusedElement := some w.activeElement }
    let d := { d with
      titleText := loc.name,
      descriptionHtml := "<p>" ++ loc.summary ++ "</p>",
      galleryView := renderGallery loc.gallery,
      ariaHidden := false }
    let w := { w with dialog := some d, bodyOverflowHidden := true }
    let (d2, w2, err) := setupFocusTrap d w
    ({ w2 with dialog := some d2 }, err)

/-- The deferred callback of `setTimeout(..., 100)` at the end of
`openModal`: focus the first ring member if the ring is non-empty. -/
def openFocusTimer (w : World) : World :=
  match w.focusableElements with
  | [] => w
  | f :: _ => { w with activeElement := f }

/-- `closeModal()` (lines 80-97): no-op when the dialog root is missing;
otherwise hide the dialog, unlock scroll, restore focus to
`previouslyFocusedElement` and clear it (when set), then clear the session
state. -/
def closeModal (w : World) : World :=
  match w.dialog with
  | none => w
  | some d =>
    let w := { w with
      dialog := some { d with ariaHidden := true },
      bodyOverflowHidden := false }
    let w :=
      match w.previouslyFocusedElement with
      | some e => { w with activeElement := e, previouslyFocusedElement := none }
      | none => w
    { w with
      currentLocation := none,
      currentImageIndex := 0,
      focusableElements := [] }

/-- `navigateGallery(direction, images)` as a world transition: the index
update (the pure `navigateGallery` above) followed by `updateGalleryImage`
on the rendered gallery. -/
def navigateGalleryW (direction : Int) (images : List String) (w : World) :
    World :=
  let idx := navigateGallery direction images w.currentImageIndex
  let w := { w with currentImageIndex := idx }
  match w.dialog with
  | some d =>
      let d2 := { d with galleryView := updateGalleryImage images idx d.galleryView }
      { w with dialog := some d2 }
  | none => w

/-- `handleSwipe()` (lines 213-228): compare `|touchStartX - touchEndX|`
against the 50px threshold, ignore short swipes and galleries of at most one
image, then navigate (left swipe, positive diff → next; right swipe → previous). -/
def handleSwipe (w : World) : World :=
  let swipeThreshold : Int := 50
  let diff := w.touchStartX - w.touchEndX
  if abs diff < swipeThreshold then w
  else
    match w.currentLocation with
    | none => w
    | some loc =>
      if loc.gallery.length ≤ 1 then w
      else if 0 < diff then navigateGalleryW 1 loc.gallery w
      else navigateGalleryW (-1) loc.gallery w

/-- `handleTouchStart(e)` (lines 204-206). -/
def handleTouchStart (screenX : Int) (w : World) : World :=
  { w with touchStartX := screenX }

/-- `handleTouchEnd(e)` (lines 208-211): record the end coordinate and run
`handleSwipe`. -/
def handleTouchEnd (screenX : Int) (w : World) : World :=
  handleSwipe { w with touchEndX := screenX }

/-- `handleModalKeydown(e)` (lines 271-290): ignore events while the dialog
is missing or hidden; Escape closes; Left/Right arrows navigate when the
current location's gallery has more than one image. -/
def handleModalKeydown (key : String) (w : World) : World :=
  match w.dialog with
  | none => w
  | some d =>
    if d.ariaHidden then w
    else
      let w := if key = "Escape" then closeModal w else w
      match w.currentLocation with
      | some loc =>
        if 1 < loc.gallery.length then
          if key = "ArrowLeft" then navigateGalleryW (-1) loc.gallery w
          else if key = "ArrowRight" then navigateGalleryW 1 loc.gallery w
          else w
        else w
      | none => w

/-! ## The focus-trap keydown handler (`trapFocus`, lines 252-268)

The handler closes over `firstElement`/`lastElement` computed at setup time.
It is embedded as a pure function of the key event and of
`document.activeElement`, returning whether it called `preventDefault()` and
which element (if any) it forced focus onto. -/

structure KeyEvent where
  key : String
  shiftKey : Bool
deriving Repr, DecidableEq

/-- The body of the function expression `trapFocus(e)`: non-Tab keys pass
through untouched; Shift+Tab on the first ring element forces focus to the
last; plain Tab on the last forces focus to the first; any other Tab is left
to the browser default. -/
def trapFocus (firstElement lastElement : Nat) (e : KeyEvent)
    (activeElement : Nat) : Bool × Option Nat :=
  if e.key ≠ "Tab" then (false, none)
  else if e.shiftKey then
    if activeElement = firstElement then (true, some lastElement)
    else (false, none)
  else
    if activeElement = lastElement then (true, some firstElement)
    else (false, none)

/-- Browser default Tab movement inside the modal (environment model, not
repository code): focus moves to the next element of the ring in DOM order. -/
def ringNext (ring : List Nat) (a : Nat) : Nat :=
  ring.getD (ring.findIdx (fun x => x = a) + 1) a

/-- Browser default Shift+Tab movement: the previous ring element. -/
def ringPrev (ring : List Nat) (a : Nat) : Nat :=
  ring.getD (ring.findIdx (fun x => x = a) - 1) a

/-- One keydown while focus is inside the ring, were the `trapFocus` handler
attached: the handler runs first; if it does not `preventDefault`, the
browser default Tab movement applies; non-Tab keys leave focus alone. -/
def keydownStep (ring : List Nat) (e : KeyEvent) (a : Nat) : Nat :=
  match ring with
  | [] => a
  | f :: rest =>
    match trapFocus f ((f :: rest).getLast (List.cons_ne_nil f rest)) e a with
    | (true, some t) => t
    | _ =>
        if e.key = "Tab" then
          if e.shiftKey then ringPrev ring a else ringNext ring a
        else a

/-! Concrete worlds used by the witnesses and counterexamples. -/

/-- The spec's scenario location (three-image gallery). -/
def demoLoc : Location :=
  { id := "taormina", name := "Taormina", summary := "Ancient theatre",
    coords := some { lat := some 37, lng := some 15 },
    gallery := ["a.jpg", "b.jpg", "c.jpg"] }

/-- A location with a two-image gallery. -/
def demoLoc2 : Location :=
  { id := "duo", name := "Duo", summary := "Two images",
    coords := none, gallery := ["a.jpg", "b.jpg"] }

/-- A location with a single-image gallery. -/
def demoLoc1 : Location :=
  { id := "solo", name := "Solo", summary := "One image",
    coords := none, gallery := ["x.jpg"] }

/-- A location with an empty gallery. -/
def demoLoc0 : Location :=
  { id := "none", name := "None", summary := "No images",
    coords := none, gallery := [] }

/-- A page whose dialog root exists and contains one focusable element (the
close button, handle 7); element 3 is focused. -/
def demoDialog : ModalDom :=
  { ariaHidden := true, titleText := "", descriptionHtml := "",
    galleryView := .emptyState, focusables := [7],
    keydownListenerCount := 0 }

def demoWorld : World :=
  { dialog := some demoDialog, activeElement := 3,
    bodyOverflowHidden := false, currentLocation := none,
    currentImageIndex := 0, focusableElements := [],
    previouslyFocusedElement := none, touchStartX := 0, touchEndX := 0 }

/-- A page whose dialog root is missing. -/
def noDialogWorld : World :=
  { demoWorld with dialog := none }

example : (openModal (some demoLoc) demoWorld).2
    = some (.referenceError "trapFocus") := by decide

/-- `trapFocus` resolves to nothing in the scopes enclosing line 249. -/
theorem resolve_trapFocus : resolveInModalScope "trapFocus" = none := by decide

/-- `setupFocusTrap` in one equation: the ring is always recomputed, the
dialog's listener set is never changed, and a `ReferenceError` escapes
exactly when the ring is non-empty. -/
theorem setupFocusTrap_eq (d : ModalDom) (w : World) :
    setupFocusTrap d w =
      (d, { w with focusableElements := d.focusables },
       if d.focusables.length = 0 then none
       else some (.referenceError "trapFocus")) := by
  unfold setupFocusTrap
  rw [resolve_trapFocus]
  by_cases h : d.focusables.length = 0 <;> simp [h]

/-- `openModal` on a present dialog and non-null location, in one equation. -/
theorem openModal_some (w : World) (d : ModalDom) (loc : Location)
    (h : w.dialog = some d) :
    openModal (some loc) w =
      ({ w with
          currentLocation := some loc,
          currentImageIndex := 0,
          previouslyFocusedElement := some w.activeElement,
          dialog := some { d with
            titleText := loc.name,
            descriptionHtml := "<p>" ++ loc.summary ++ "</p>",
            galleryView := renderGallery loc.gallery,
            ariaHidden := false },
          bodyOverflowHidden := true,
          focusableElements := d.focusables },
       if d.focusables.length = 0 then none
       else some (.referenceError "trapFocus")) := by
  unfold openModal
  rw [h]
  simp only [setupFocusTrap_eq]

/-- C2: evaluating the code at a modal with one focusable element:
`setupFocusTrap` does recompute the ring, but then throws
`ReferenceError: trapFocus` out of `removeEventListener('keydown', trapFocus)`
(the identifier is bound only inside the function expression of line 252),
so it neither removes nor attaches any keydown listener and does not
complete without error — contrary to the claim. -/
theorem setupFocusTrap_reference_error :
    setupFocusTrap demoDialog demoWorld
      = (demoDialog, { demoWorld with focusableElements := [7] },
         some (.referenceError "trapFocus"))
    ∧ (setupFocusTrap demoDialog demoWorld).1.keydownListenerCount = 0 := by
  exact ⟨by decide, by decide⟩

/-- C3: opening the modal of `demoWorld` (one focusable element) aborts in
`setupFocusTrap` with the `trapFocus` `ReferenceError`, so zero keydown
listeners are attached while the modal is open and no Tab-cycling happens;
the handler body itself (lines 252-268) would implement the claimed cycling,
shown here on the concrete ring `[10, 20, 30]`: Tab on the last element
forces the first, Shift+Tab on the first forces the last, a non-Tab key
passes through, and three Tab steps from the first return to the first. -/
theorem trapFocus_never_attached :
    (openModal (some demoLoc) demoWorld).2 = some (.referenceError "trapFocus")
    ∧ (openModal (some demoLoc) demoWorld).1.dialog.map
        ModalDom.keydownListenerCount = some 0
    ∧ trapFocus 10 30 { key := "Tab", shiftKey := false } 30 = (true, some 10)
    ∧ trapFocus 10 30 { key := "Tab", shiftKey := true } 10 = (true, some 30)
    ∧ trapFocus 10 30 { key := "Enter", shiftKey := false } 20 = (false, none)
    ∧ (fun a => keydownStep [10, 20, 30] { key := "Tab", shiftKey := false } a)^[3] 10 = 10
    ∧ keydownStep [10, 20, 30] { key := "Tab", shiftKey := true } 10 = 30 := by
  refine ⟨by decide, by decide, by decide, by decide, by decide, ?_, by decide⟩
  decide

/-- C4: one open/close cycle restores focus.  `openModal` captures the
element focused immediately before the call into `previouslyFocusedElement`
(set exactly once — nothing else writes it before `closeModal` runs), and
`closeModal` focuses exactly that element and clears the capture. -/
theorem modal_focus_restore (w : World) (d : ModalDom) (loc : Location)
    (h : w.dialog = some d) :
    (openModal (some loc) w).1.previouslyFocusedElement = some w.activeElement
    ∧ (closeModal (openModal (some loc) w).1).activeElement = w.activeElement
    ∧ (closeModal (openModal (some loc) w).1).previouslyFocusedElement = none := by
  rw [openModal_some w d loc h]
  refine ⟨rfl, ?_, ?_⟩ <;> simp [closeModal]

/-- C4 at the concrete demo page: element 3 is focused, the modal opens and
closes, focus is back on element 3 and the capture is cleared. -/
theorem modal_focus_restore_witness :
    demoWorld.dialog = some demoDialog
    ∧ ((openModal (some demoLoc) demoWorld).1.previouslyFocusedElement
         = some demoWorld.activeElement
       ∧ (closeModal (openModal (some demoLoc) demoWorld).1).activeElement
         = demoWorld.activeElement
       ∧ (closeModal (openModal (some demoLoc) demoWorld).1).previouslyFocusedElement
         = none) :=
  ⟨rfl, modal_focus_restore demoWorld demoDialog demoLoc rfl⟩

/-- C7: `openModal` with a missing dialog root or a null location returns
before touching anything (no error, no state change), and `closeModal` with
a missing dialog root is likewise a silent no-op. -/
theorem modal_noop_guards (w : World) (loc : Option Location)
    (h : w.dialog = none ∨ loc = none) :
    openModal loc w = (w, none) ∧ (w.dialog = none → closeModal w = w) := by
  constructor
  · rcases h with h | h
    · simp [openModal, h]
    · subst h
      cases hd : w.dialog <;> simp [openModal, hd]
  · intro h0
    simp [closeModal, h0]

/-- C7 at a concrete page with no dialog root. -/
theorem modal_noop_guards_witness :
    (noDialogWorld.dialog = none ∨ (some demoLoc : Option Location) = none)
    ∧ (openModal (some demoLoc) noDialogWorld = (noDialogWorld, none)
       ∧ (noDialogWorld.dialog = none → closeModal noDialogWorld = noDialogWorld)) :=
  ⟨Or.inl rfl, modal_noop_guards noDialogWorld (some demoLoc) (Or.inl rfl)⟩

/-! ## Swipe threshold (C5) -/

/-- A gallery-surface touch gesture at exactly the 50px threshold on a
two-image gallery. -/
def swipeBoundaryWorld : World :=
  { demoWorld with currentLocation := some demoLoc2,
                   touchStartX := 50, touchEndX := 0 }

/-- C5 counterexample: a swipe whose horizontal displacement is exactly 50
pixels does NOT exceed the 50-pixel threshold, yet `handleSwipe` navigates
(the code ignores only `|diff| < 50`), so "navigation is triggered only when
the displacement exceeds the threshold" is false at this input. -/
theorem swipe_threshold_counterexample :
    abs (swipeBoundaryWorld.touchStartX - swipeBoundaryWorld.touchEndX) = 50
    ∧ ¬ 50 < abs (swipeBoundaryWorld.touchStartX - swipeBoundaryWorld.touchEndX)
    ∧ swipeBoundaryWorld.currentImageIndex = 0
    ∧ (handleSwipe swipeBoundaryWorld).currentImageIndex = 1 := by
  refine ⟨by decide, by decide, by decide, by decide⟩

/-- C5 amended: on a gallery of at least two images, a swipe strictly below
the 50px displacement threshold changes nothing, and a swipe whose
displacement is at least 50px (meets or exceeds the threshold) navigates —
leftward (start right of end) to the next image, rightward to the previous. -/
theorem swipe_threshold_amended (w : World) (loc : Location)
    (hloc : w.currentLocation = some loc) (hlen : 2 ≤ loc.gallery.length) :
    (abs (w.touchStartX - w.touchEndX) < 50 → handleSwipe w = w)
    ∧ (50 ≤ w.touchStartX - w.touchEndX →
        handleSwipe w = navigateGalleryW 1 loc.gallery w)
    ∧ (50 ≤ w.touchEndX - w.touchStartX →
        handleSwipe w = navigateGalleryW (-1) loc.gallery w) := by
  refine ⟨?_, ?_, ?_⟩ <;> intro hd <;> unfold handleSwipe
  · rw [if_pos hd]
  · have habs : ¬ abs (w.touchStartX - w.touchEndX) < 50 := by
      have := le_abs_self (w.touchStartX - w.touchEndX)
      omega
    rw [if_neg habs, hloc]
    have hsmall : ¬ loc.gallery.length ≤ 1 := by omega
    show (if loc.gallery.length ≤ 1 then w
          else if 0 < w.touchStartX - w.touchEndX then navigateGalleryW 1 loc.gallery w
          else navigateGalleryW (-1) loc.gallery w) = _
    rw [if_neg hsmall, if_pos (by omega : (0 : Int) < w.touchStartX - w.touchEndX)]
  · have habs : ¬ abs (w.touchStartX - w.touchEndX) < 50 := by
      have := neg_abs_le (w.touchStartX - w.touchEndX)
      omega
    rw [if_neg habs, hloc]
    have hsmall : ¬ loc.gallery.length ≤ 1 := by omega
    show (if loc.gallery.length ≤ 1 then w
          else if 0 < w.touchStartX - w.touchEndX then navigateGalleryW 1 loc.gallery w
          else navigateGalleryW (-1) loc.gallery w) = _
    rw [if_neg hsmall, if_neg (by omega : ¬ (0 : Int) < w.touchStartX - w.touchEndX)]

/-- C5 amended, at the concrete 50px boundary gesture. -/
theorem swipe_threshold_amended_witness :
    swipeBoundaryWorld.currentLocation = some demoLoc2
    ∧ 2 ≤ demoLoc2.gallery.length
    ∧ (50 ≤ swipeBoundaryWorld.touchStartX - swipeBoundaryWorld.touchEndX →
        handleSwipe swipeBoundaryWorld
          = navigateGalleryW 1 demoLoc2.gallery swipeBoundaryWorld) :=
  ⟨rfl, by decide,
   (swipe_threshold_amended swipeBoundaryWorld demoLoc2 rfl (by decide)).2.1⟩

/-! ## Degenerate galleries (C6) -/

/-- The user inputs the claim quantifies over: a full touch gesture on the
gallery surface (a `touchstart` at `startX` followed by a `touchend` at
`endX`), or an arrow-key press. -/
inductive GalleryInput where
  | swipe (startX endX : Int)
  | arrowLeft
  | arrowRight
deriving Repr, DecidableEq

/-- Dispatch one input through the code's handlers. -/
def galleryInputStep (w : World) (e : GalleryInput) : World :=
  match e with
  | .swipe sx ex => handleTouchEnd ex (handleTouchStart sx w)
  | .arrowLeft => handleModalKeydown "ArrowLeft" w
  | .arrowRight => handleModalKeydown "ArrowRight" w

/-- On a gallery of at most one image, no swipe and no arrow key moves the
index or the current location. -/
theorem galleryInputStep_small (w : World) (loc : Location) (e : GalleryInput)
    (hloc : w.currentLocation = some loc) (hlen : loc.gallery.length ≤ 1) :
    (galleryInputStep w e).currentImageIndex = w.currentImageIndex
    ∧ (galleryInputStep w e).currentLocation = w.currentLocation := by
  cases e with
  | swipe sx ex =>
      simp only [galleryInputStep, handleTouchEnd, handleTouchStart, handleSwipe]
      split
      · exact ⟨rfl, rfl⟩
      · simp only [hloc]
        rw [if_pos hlen]
        exact ⟨rfl, rfl⟩
  | arrowLeft =>
      simp only [galleryInputStep, handleModalKeydown]
      cases hd : w.dialog with
      | none => exact ⟨rfl, rfl⟩
      | some d =>
          by_cases hh : d.ariaHidden
          · simp [hh]
          · simp only [hh, if_false, Bool.false_eq_true]
            rw [if_neg (by decide : ¬ ("ArrowLeft" = "Escape"))]
            simp only [hloc]
            rw [if_neg (by omega : ¬ 1 < loc.gallery.length)]
            exact ⟨rfl, hloc⟩
  | arrowRight =>
      simp only [galleryInputStep, handleModalKeydown]
      cases hd : w.dialog with
      | none => exact ⟨rfl, rfl⟩
      | some d =>
          by_cases hh : d.ariaHidden
          · simp [hh]
          · simp only [hh, if_false, Bool.false_eq_true]
            rw [if_neg (by decide : ¬ ("ArrowRight" = "Escape"))]
            simp only [hloc]
            rw [if_neg (by omega : ¬ 1 < loc.gallery.length)]
            exact ⟨rfl, hloc⟩

/-- Folding any input sequence over a world whose current gallery has at most
one image leaves the index unchanged. -/
theorem foldl_galleryInputStep_small (evs : List GalleryInput) (w : World)
    (loc : Location) (hloc : w.currentLocation = some loc)
    (hlen : loc.gallery.length ≤ 1) :
    (evs.foldl galleryInputStep w).currentImageIndex = w.currentImageIndex := by
  induction evs generalizing w with
  | nil => rfl
  | cons e rest ih =>
      have h := galleryInputStep_small w loc e hloc hlen
      rw [List.foldl_cons, ih (galleryInputStep w e) (by rw [h.2, hloc]), h.1]

/-- C6: opening the modal on a one-image gallery renders the single
non-navigable image (no previous/next controls), and `currentImageIndex`
stays 0 under every sequence of swipe gestures and arrow-key presses;
opening on an empty gallery renders the empty-state placeholder with no
navigation controls (and the index likewise stays 0). -/
theorem degenerate_gallery_static (w : World) (d : ModalDom) (loc : Location)
    (img : String) (evs : List GalleryInput) (h : w.dialog = some d) :
    (loc.gallery = [img] →
      (openModal (some loc) w).1.dialog.map ModalDom.galleryView
          = some (GalleryView.single img)
      ∧ navControlCount (GalleryView.single img) = 0
      ∧ (evs.foldl galleryInputStep
          (openModal (some loc) w).1).currentImageIndex = 0)
    ∧ (loc.gallery = [] →
      (openModal (some loc) w).1.dialog.map ModalDom.galleryView
          = some GalleryView.emptyState
      ∧ navControlCount GalleryView.emptyState = 0
      ∧ (evs.foldl galleryInputStep
          (openModal (some loc) w).1).currentImageIndex = 0) := by
  rw [openModal_some w d loc h]
  constructor <;> intro hg
  · refine ⟨by simp [hg, renderGallery], rfl, ?_⟩
    rw [foldl_galleryInputStep_small evs _ loc rfl (by rw [hg]; simp)]
  · refine ⟨by simp [hg, renderGallery], rfl, ?_⟩
    rw [foldl_galleryInputStep_small evs _ loc rfl (by rw [hg]; simp)]

/-- C6 at concrete one-image and empty galleries, under a concrete input
sequence (a long swipe each way and both arrows). -/
theorem degenerate_gallery_static_witness :
    demoWorld.dialog = some demoDialog
    ∧ demoLoc1.gallery = ["x.jpg"]
    ∧ ((openModal (some demoLoc1) demoWorld).1.dialog.map ModalDom.galleryView
         = some (GalleryView.single "x.jpg")
       ∧ navControlCount (GalleryView.single "x.jpg") = 0
       ∧ ([GalleryInput.swipe 200 0, GalleryInput.swipe 0 200,
           GalleryInput.arrowLeft, GalleryInput.arrowRight].foldl
            galleryInputStep
            (openModal (some demoLoc1) demoWorld).1).currentImageIndex = 0) :=
  ⟨rfl, rfl,
   (degenerate_gallery_static demoWorld demoDialog demoLoc1 "x.jpg"
      [GalleryInput.swipe 200 0, GalleryInput.swipe 0 200,
       GalleryInput.arrowLeft, GalleryInput.arrowRight] rfl).1 rfl⟩

/-! ## The map controller (`src/scripts/map.js`) -/

/-- The outcome of `fetch('./data/locations.json')` followed by
`response.json()`: a network error (the fetch promise rejects), or a
response with an HTTP status and a parse result (`none` when `.json()`
rejects). -/
inductive FetchOutcome where
  | networkError
  | response (status : Nat) (json : Option (List Location))
deriving Repr, DecidableEq

/-- `response.ok`: status in the 2xx range. -/
def responseOk (status : Nat) : Bool :=
  decide (200 ≤ status) && decide (status < 300)

/-- The literal innerHTML `initMap` writes into `#sicilyMap` when loading
the locations dataset fails (line 50 of map.js). -/
def locationsErrorHtml : String :=
  "<div style=\"padding: 2rem; text-align: center; color: #e74c3c;\">Ошибка загрузки данных локаций.</div>"

/-- The literal innerHTML written when Leaflet itself is missing (line 31). -/
def leafletErrorHtml : String :=
  "<div style=\"padding: 2rem; text-align: center; color: #e74c3c;\">Ошибка загрузки карты. Проверьте консоль браузера.</div>"

/-- A Leaflet marker as far as the embedding needs it: position, title and
the location it opens the modal for. -/
structure MarkerRec where
  lat : Int
  lng : Int
  title : String
  locationId : String
deriving Repr, DecidableEq

/-- The map page state touched by `initMap`: the `#sicilyMap` container
(present or not, and its innerHTML), the module-level `locationsData` and
`markers` arrays, and whether `L.map` was invoked. -/
structure MapWorld where
  containerExists : Bool
  containerHtml : String
  locationsData : List Location
  markers : List MarkerRec
  mapCreated : Bool
deriving Repr, DecidableEq

/-- The module-initial map state (`map = null`, `locationsData = []`,
`markers = []`) on a page whose `#sicilyMap` container exists. -/
def initialMapWorld : MapWorld :=
  { containerExists := true, containerHtml := "", locationsData := [],
    markers := [], mapCreated := false }

/-- The skip guard of `addMarkers` (line 139):
`!location.coords || !location.coords.lat || !location.coords.lng`.
JS truthiness of a number field: an absent field is `undefined` (falsy) and
the number `0` is falsy too. -/
def markerGuardSkips (loc : Location) : Bool :=
  match loc.coords with
  | none => true
  | some c =>
      !(match c.lat with | none => false | some n => decide (n ≠ 0))
      || !(match c.lng with | none => false | some n => decide (n ≠ 0))

/-- The marker built for a non-skipped location (lines 144-204): position
`[coords.lat, coords.lng]`, `title: location.name`, click opens the modal on
that location.  (The `none`/absent branches are unreachable under the skip
guard.) -/
def mkMarker (loc : Location) : MarkerRec :=
  match loc.coords with
  | some c => { lat := c.lat.getD 0, lng := c.lng.getD 0,
                title := loc.name, locationId := loc.id }
  | none => { lat := 0, lng := 0, title := loc.name, locationId := loc.id }

/-- The warning `console.warn` emits for a skipped location (line 140). -/
def missingCoordsWarning (loc : Location) : String :=
  "⚠️ Missing coordinates for location: " ++ loc.id

/-- The `locationsData.forEach` body of `addMarkers` (lines 138-208): each
record either yields a console warning (skip guard) or a marker appended to
`markers`, in dataset order.  Returns (markers, warnings). -/
def addMarkers : List Location → List MarkerRec × List String
  | [] => ([], [])
  | loc :: rest =>
      let (ms, ws) := addMarkers rest
      if markerGuardSkips loc then (ms, missingCoordsWarning loc :: ws)
      else (mkMarker loc :: ms, ws)

/-- `initMap()` (lines 25-122): bail out with an inline error when Leaflet
is missing; load the dataset, and on a rejected fetch, a non-ok status or a
rejected `.json()` write the inline data error and return (the `try/catch`
means no exception escapes, which is why this embedding is a total
function); otherwise store the data, create the map and add the markers. -/
def initMap (leafletLoaded : Bool) (fetch : FetchOutcome) (w : MapWorld) :
    MapWorld :=
  if !leafletLoaded then
    if w.containerExists then { w with containerHtml := leafletErrorHtml }
    else w
  else
    let dataFail : MapWorld :=
      if w.containerExists then { w with containerHtml := locationsErrorHtml }
      else w
    match fetch with
    | .networkError => dataFail
    | .response status json =>
      if !responseOk status then dataFail
      else
        match json with
        | none => dataFail
        | some locs =>
          let w := { w with locationsData := locs }
          if !w.containerExists then w
          else
            let w := { w with mapCreated := true }
            if locs.length = 0 then w
            else { w with markers := (addMarkers locs).1 }

/-- C8: a non-2xx response (e.g. HTTP 404) to the dataset fetch makes
`initMap` replace the map region with the literal inline error text, add
zero markers, create no map, and return normally (the embedding is a total
function because the JS `try/catch` confines the thrown `HTTP error!`). -/
theorem initMap_http_error (status : Nat) (json : Option (List Location))
    (h : ¬ (200 ≤ status ∧ status < 300)) :
    (initMap true (.response status json) initialMapWorld).containerHtml
        = locationsErrorHtml
    ∧ (initMap true (.response status json) initialMapWorld).markers = []
    ∧ (initMap true (.response status json) initialMapWorld).mapCreated = false := by
  have hok : responseOk status = false := by
    unfold responseOk
    rcases Nat.lt_or_ge status 200 with h1 | h1
    · simp [Nat.not_le.mpr h1]
    · have h2 : ¬ status < 300 := by omega
      simp [h2]
  unfold initMap
  simp [hok, initialMapWorld]

/-- C8 at HTTP 404. -/
theorem initMap_http_error_witness :
    ¬ (200 ≤ 404 ∧ 404 < 300)
    ∧ ((initMap true (.response 404 none) initialMapWorld).containerHtml
          = locationsErrorHtml
       ∧ (initMap true (.response 404 none) initialMapWorld).markers = []
       ∧ (initMap true (.response 404 none) initialMapWorld).mapCreated = false) :=
  ⟨by omega, initMap_http_error 404 none (by omega)⟩

/-! ## Marker skipping (C9) -/

/-- The claim's own notion, for comparison: a record whose coordinate fields
are missing (no `coords` object, or no `lat`, or no `lng`). -/
def coordsMissing (loc : Location) : Bool :=
  match loc.coords with
  | none => true
  | some c => c.lat.isNone || c.lng.isNone

/-- A location lying on the equator: `coords` and both fields are present,
with `lat` equal to the number 0. -/
def equatorLoc : Location :=
  { id := "equator", name := "Equator", summary := "lat 0",
    coords := some { lat := some 0, lng := some 14 }, gallery := [] }

/-- C9 counterexample: `equatorLoc` has all its coordinate fields, yet the
guard `!location.coords.lat` treats the number 0 as falsy, so the record is
skipped (warning emitted, no marker) — the claimed "skipped iff coordinate
fields are missing" fails in the only-if direction. -/
theorem addMarkers_skips_equator :
    coordsMissing equatorLoc = false
    ∧ markerGuardSkips equatorLoc = true
    ∧ addMarkers [equatorLoc]
        = ([], ["⚠️ Missing coordinates for location: equator"]) := by
  refine ⟨by decide, by decide, by decide⟩

/-- The amended skip notion: the `coords` object is missing, or `lat` or
`lng` is missing **or JS-falsy (the number 0)**. -/
def coordsMissingOrFalsy (loc : Location) : Bool :=
  match loc.coords with
  | none => true
  | some c => decide (c.lat.getD 0 = 0) || decide (c.lng.getD 0 = 0)

/-- C9 amended: during marker creation exactly the records whose `coords`
object is missing, or whose `lat`/`lng` field is missing or equal to the
falsy number 0, are skipped with the console warning; every other record of
the dataset gets its marker, in dataset order. -/
theorem addMarkers_skip_characterization (locs : List Location) :
    (addMarkers locs).1
        = (locs.filter (fun l => !markerGuardSkips l)).map mkMarker
    ∧ (addMarkers locs).2
        = (locs.filter markerGuardSkips).map missingCoordsWarning
    ∧ ∀ l : Location, markerGuardSkips l = coordsMissingOrFalsy l := by
  refine ⟨?_, ?_, ?_⟩
  · induction locs with
    | nil => rfl
    | cons loc rest ih =>
        by_cases h : markerGuardSkips loc <;>
          simp [addMarkers, List.filter_cons, h, ih]
  · induction locs with
    | nil => rfl
    | cons loc rest ih =>
        by_cases h : markerGuardSkips loc <;>
          simp [addMarkers, List.filter_cons, h, ih]
  · intro l
    unfold markerGuardSkips coordsMissingOrFalsy
    cases hc : l.coords with
    | none => rfl
    | some c =>
        cases hl : c.lat <;> cases hg : c.lng <;>
          simp [hl, hg, Option.getD]

/-! ## Motion preference bootstrap (C10)

The `checkMotionPreference` / `applyMotionPreference` /
`watchMotionPreference` trio appended to modal.js (the main entry point). -/

/-- The bootstrap state: the `"motionEnabled"` localStorage value (`none`
when the key is absent), the module-level `motionEnabled` flag (initially
`true`), the `reduce-motion` class on the document element, and the motion
toggle's `aria-pressed` state. -/
structure AppWorld where
  storedMotion : Option String
  motionEnabled : Bool
  reduceMotionClass : Bool
  togglePressed : Bool
deriving Repr, DecidableEq

/-- `applyMotionPreference(enabled)`: set the flag, toggle the
`reduce-motion` class, update the toggle button (`aria-pressed` is `'false'`
when motion is enabled), and unconditionally
`localStorage.setItem('motionEnabled', enabled.toString())`. -/
def applyMotionPreference (enabled : Bool) (w : AppWorld) : AppWorld :=
  { w with
    motionEnabled := enabled,
    reduceMotionClass := !enabled,
    togglePressed := !enabled,
    storedMotion := some (if enabled then "true" else "false") }

/-- `checkMotionPreference()`: prefer the saved `'motionEnabled'` value;
with the key absent fall back to the OS reduced-motion signal (keeping the
default `true` when the OS does not ask for reduction); then apply. -/
def checkMotionPreference (prefersReduced : Bool) (w : AppWorld) : AppWorld :=
  let motionEnabled :=
    match w.storedMotion with
    | some saved => saved = "true"
    | none => if prefersReduced then false else w.motionEnabled
  applyMotionPreference motionEnabled w

/-- The `change` handler registered by `watchMotionPreference()`: it applies
the new OS signal only while the `'motionEnabled'` key is absent. -/
def watchMotionHandler (eventMatches : Bool) (w : AppWorld) : AppWorld :=
  if w.storedMotion.isNone then applyMotionPreference (!eventMatches) w else w

/-- C10: `checkMotionPreference` always persists the resolved flag — in
particular, when the key was absent and the OS reduced-motion signal decided
the value, the resolved value is still written back — so after any page
initialization the key is present, and the OS-signal change handler (guarded
on the key being absent) is a no-op on the resulting state: the absent-key
OS fallback can only ever act on the very first load. -/
theorem motion_preference_persists (w : AppWorld)
    (prefersReduced osMatches : Bool) :
    (checkMotionPreference prefersReduced w).storedMotion.isSome = true
    ∧ (w.storedMotion = none → prefersReduced = true →
        (checkMotionPreference prefersReduced w).storedMotion = some "false")
    ∧ watchMotionHandler osMatches (checkMotionPreference prefersReduced w)
        = checkMotionPreference prefersReduced w := by
  refine ⟨?_, ?_, ?_⟩
  · unfold checkMotionPreference applyMotionPreference
    cases w.storedMotion <;> rfl
  · intro h1 h2
    unfold checkMotionPreference applyMotionPreference
    rw [h1, h2]
    rfl
  · unfold watchMotionHandler
    rw [if_neg]
    unfold checkMotionPreference applyMotionPreference
    cases w.storedMotion <;> simp

/-- C1 at the concrete three-image gallery of the spec's scenario. -/
theorem gallery_roundtrip_and_wrap_witness :
    2 ≤ (["a.jpg", "b.jpg", "c.jpg"] : List String).length ∧
    (fun c => navigateGallery 1 ["a.jpg", "b.jpg", "c.jpg"] c)^[(["a.jpg", "b.jpg", "c.jpg"] : List String).length] 0 = 0 ∧
    navigateGallery 1 ["a.jpg", "b.jpg", "c.jpg"] 2 = (2 + 1) % 3 :=
  ⟨by decide,
   (gallery_roundtrip_and_wrap ["a.jpg", "b.jpg", "c.jpg"] (by decide)).1,
   (gallery_roundtrip_and_wrap ["a.jpg", "b.jpg", "c.jpg"] (by decide)).2
     2 1 (by decide) (by decide) (Or.inl rfl)⟩

end SicilySite
